import Mathlib

/-!
Verification of the Catalyst Capture API core (`apps/api/src/index.js`)
against its natural-language specification.

The executable core is embedded shallowly: the process-wide mutable maps
(`sites`, `submissions`, `challengeTokens`, `accessTokens`) become an
explicit `ServerState` threaded through each handler; `Date.now()` becomes
an explicit `now : Int` argument; the secure-random token strings and the
`Math.random()`-derived keys are supplied as explicit arguments (their
generation is external randomness); the WHATWG URL parse performed by
`getOriginHost` is external library code, so a handler receives the parsed
hostname (`none` when the Origin header is absent or unparsable) alongside
the raw header value.  JavaScript `Map` objects are modelled as association
lists with `Map.set` replace-in-place-or-append semantics, which preserves
the insertion-order iteration the code relies on in `findSiteBySiteKey`.
-/

namespace Catalyst

/-- A tenant record as stored by `POST /v1/admin/sites` (index.js line 438). -/
structure SiteRecord where
  id : String
  name : String
  domains : List String
  siteKey : String
  secretKey : String
deriving Repr, DecidableEq

/-- A challenge-token record, `challengeTokens.set(token, {siteKey, issuedAt, verified})`
(index.js lines 304-308). -/
structure ChallengeRecord where
  siteKey : String
  issuedAt : Int
  verified : Bool
deriving Repr, DecidableEq

/-- An access-token record, `accessTokens.set(accessToken, {siteKey, issuedAt})`
(index.js lines 335-338). -/
structure AccessRecord where
  siteKey : String
  issuedAt : Int
deriving Repr, DecidableEq

/-- A persisted submission entry (index.js lines 410-418).  `payload` is an
arbitrary JSON value, treated as an opaque string here. -/
structure SubmissionEntry where
  eventId : String
  siteKey : String
  payload : String
  fingerprint : Option String
  ip : Option String
  ua : Option String
  origin : Option String
deriving Repr, DecidableEq

/-- `Map.set k v` semantics of a JavaScript Map rendered on an association
list: replace in place when the key exists (keeping its position in
insertion order), append otherwise. -/
def mapSet {α : Type} : List (String × α) → String → α → List (String × α)
  | [], k, v => [(k, v)]
  | (k', v') :: rest, k, v =>
    if k' = k then (k, v) :: rest else (k', v') :: mapSet rest k v

/-- `Map.get k` semantics: the value stored at the first (hence, under the
`mapSet` invariant, only) occurrence of the key. -/
def mapGet {α : Type} : List (String × α) → String → Option α
  | [], _ => none
  | (k', v) :: rest, k => if k' = k then some v else mapGet rest k

/-- The process-wide mutable state of the API (index.js lines 53-56). -/
structure ServerState where
  sites : List (String × SiteRecord)
  submissions : List SubmissionEntry
  challengeTokens : List (String × ChallengeRecord)
  accessTokens : List (String × AccessRecord)
deriving Repr, DecidableEq

/-- Environment-derived timing configuration (index.js lines 58-59):
`TOKEN_TTL_MS` defaults to 5 minutes, `MIN_SUBMIT_DELAY_MS` to 0. -/
structure Config where
  tokenTtlMs : Int
  minSubmitDelayMs : Int
deriving Repr, DecidableEq

/-- The default configuration when neither environment variable is set. -/
def defaultConfig : Config := { tokenTtlMs := 5 * 60 * 1000, minSubmitDelayMs := 0 }

/-- `storeSite` on the ephemeral backend (index.js lines 108-110):
`sites.set(record.id, record)`. -/
def storeSite (st : ServerState) (record : SiteRecord) : ServerState :=
  { st with sites := mapSet st.sites record.id record }

/-- `findSiteBySiteKey` on the ephemeral backend (index.js lines 119-126):
a falsy (empty) siteKey yields null, otherwise the first site in insertion
order whose `siteKey` matches. -/
def findSiteBySiteKey (st : ServerState) (siteKey : String) : Option SiteRecord :=
  if siteKey = "" then none
  else (st.sites.find? (fun p => p.2.siteKey = siteKey)).map Prod.snd

/-- `storeSubmission` on the ephemeral backend (index.js lines 135-137):
`submissions.push(entry)`. -/
def storeSubmission (st : ServerState) (entry : SubmissionEntry) : ServerState :=
  { st with submissions := st.submissions ++ [entry] }

/-- JavaScript `String.prototype.endsWith`, rendered on the character
sequences of the two strings: the check is a plain suffix test. -/
def strEndsWith (s suffix : String) : Bool :=
  suffix.data.isSuffixOf s.data

/-- `isOriginAllowed` (index.js lines 163-168).  The `host` argument is the
result of `getOriginHost(origin)`: `none` when the Origin header is absent
or the WHATWG URL parse throws, `some h` for the parsed hostname. -/
def isOriginAllowed (site : Option SiteRecord) (host : Option String) : Bool :=
  match site with
  | none => true
  | some s =>
    if s.domains.isEmpty then true
    else
      match host with
      | none => true
      | some h => s.domains.any (fun domain => h = domain || strEndsWith h ("." ++ domain))

/-- `isTokenExpired` (index.js lines 174-176): strictly
`Date.now() - issuedAt > tokenTtlMs`. -/
def isTokenExpired (cfg : Config) (now issuedAt : Int) : Bool :=
  now - issuedAt > cfg.tokenTtlMs

/-- Result of `POST /v1/challenge`. -/
inductive ChallengeResult where
  | missingSiteKey
  | issued (challengeId token : String)
deriving Repr, DecidableEq

/-- The `POST /v1/challenge` handler (index.js lines 297-310).  `freshToken`
is the secure-random `generateToken("tok")` output for this request; the
handler never consults the site registry. -/
def challenge (st : ServerState) (siteKey : String) (now : Int) (freshToken : String) :
    ChallengeResult × ServerState :=
  if siteKey = "" then (.missingSiteKey, st)
  else
    (.issued ("chl_" ++ toString now) freshToken,
      { st with challengeTokens :=
          mapSet st.challengeTokens freshToken ⟨siteKey, now, false⟩ })

/-- Result of `POST /v1/verify`. -/
inductive VerifyResult where
  | missingFields
  | originNotAllowed
  | invalidToken
  | tokenExpired
  | verified (accessToken : String)
deriving Repr, DecidableEq

/-- The `POST /v1/verify` handler (index.js lines 312-345) on the ephemeral
backend.  `host` is the parsed Origin hostname; `freshAccessToken` is the
secure-random `generateToken("acc")` output for this request. -/
def verify (cfg : Config) (st : ServerState) (siteKey token : String)
    (host : Option String) (now : Int) (freshAccessToken : String) :
    VerifyResult × ServerState :=
  if siteKey = "" ∨ token = "" then (.missingFields, st)
  else
    if (findSiteBySiteKey st siteKey).isSome
        ∧ isOriginAllowed (findSiteBySiteKey st siteKey) host = false then
      (.originNotAllowed, st)
    else
      match mapGet st.challengeTokens token with
      | none => (.invalidToken, st)
      | some record =>
        if record.siteKey ≠ siteKey then (.invalidToken, st)
        else if isTokenExpired cfg now record.issuedAt then (.tokenExpired, st)
        else
          (.verified freshAccessToken,
            { st with
              challengeTokens :=
                mapSet st.challengeTokens token { record with verified := true },
              accessTokens :=
                mapSet st.accessTokens freshAccessToken ⟨siteKey, now⟩ })

/-- Result of `POST /v1/submit`. -/
inductive SubmitResult where
  | missingFields
  | honeypotTriggered
  | originNotAllowed
  | invalidAccessToken
  | accessTokenExpired
  | invalidToken
  | tokenExpired
  | submitTooFast
  | storageFailed
  | accepted (eventId : String)
deriving Repr, DecidableEq

/-- Request metadata used by the submit handler: the parsed Origin hostname
(for the origin check), the raw Origin header, the requester IP, and the
user-agent header (stored in the entry). -/
structure RequestMeta where
  originHost : Option String
  originRaw : Option String
  ip : Option String
  ua : Option String
deriving Repr, DecidableEq

/-- The tail of the `POST /v1/submit` handler after all token checks pass
(index.js lines 409-421): build the entry with `eventId` derived from
`Date.now()` and persist it.  `st1` is the server state after any
challenge-record mutation; `storeOk` is whether the `storeSubmission`
persistence call resolves. -/
def submitFinish (st1 : ServerState) (siteKey payload : String)
    (fingerprint : Option String) (meta : RequestMeta) (now : Int) (storeOk : Bool) :
    SubmitResult × ServerState :=
  let eventId := "evt_" ++ toString now
  let entry : SubmissionEntry :=
    { eventId := eventId, siteKey := siteKey, payload := payload,
      fingerprint := fingerprint, ip := meta.ip, ua := meta.ua,
      origin := meta.originRaw }
  if storeOk then (.accepted eventId, storeSubmission st1 entry)
  else (.storageFailed, st1)

/-- The `POST /v1/submit` handler (index.js lines 369-426).  Body fields
`siteKey`, `token`, `accessToken`, `honeypot` are strings with `""` for an
absent (falsy) value; `payload` is `none` when `typeof payload ===
"undefined"`.  `storeOk` records whether the `storeSubmission` persistence
call resolves (it always does on the ephemeral backend; on the durable
backend a rejected insert lands in the catch block returning
`storage_failed`). -/
def submit (cfg : Config) (st : ServerState) (siteKey token accessToken : String)
    (payload : Option String) (honeypot : String) (fingerprint : Option String)
    (meta : RequestMeta) (now : Int) (storeOk : Bool) :
    SubmitResult × ServerState :=
  if siteKey = "" ∨ (token = "" ∧ accessToken = "") ∨ payload = none then
    (.missingFields, st)
  else if honeypot ≠ "" then (.honeypotTriggered, st)
  else
    if (findSiteBySiteKey st siteKey).isSome
        ∧ isOriginAllowed (findSiteBySiteKey st siteKey) meta.originHost = false then
      (.originNotAllowed, st)
    else
      if accessToken ≠ "" then
        match mapGet st.accessTokens accessToken with
        | none => (.invalidAccessToken, st)
        | some record =>
          if record.siteKey ≠ siteKey then (.invalidAccessToken, st)
          else if isTokenExpired cfg now record.issuedAt then (.accessTokenExpired, st)
          else submitFinish st siteKey (payload.getD "") fingerprint meta now storeOk
      else
        match mapGet st.challengeTokens token with
        | none => (.invalidToken, st)
        | some record =>
          if record.siteKey ≠ siteKey then (.invalidToken, st)
          else if isTokenExpired cfg now record.issuedAt then (.tokenExpired, st)
          else if now - record.issuedAt < cfg.minSubmitDelayMs then (.submitTooFast, st)
          else
            submitFinish
              { st with challengeTokens :=
                  mapSet st.challengeTokens token { record with verified := true } }
              siteKey (payload.getD "") fingerprint meta now storeOk

/-- Result of `POST /v1/admin/sites`. -/
inductive CreateSiteResult where
  | missingName
  | created (site : SiteRecord)
deriving Repr, DecidableEq

/-- The `POST /v1/admin/sites` handler (index.js lines 428-445) on the
ephemeral backend (where `storeSite` cannot fail).  The generated values —
`id` from the timestamp, `siteKey`/`secretKey` from `Math.random()` — are
supplied as arguments. -/
def createSite (st : ServerState) (name : String) (domains : List String)
    (id siteKey secretKey : String) : CreateSiteResult × ServerState :=
  if name = "" then (.missingName, st)
  else
    let record : SiteRecord :=
      { id := id, name := name, domains := domains,
        siteKey := siteKey, secretKey := secretKey }
    (.created record, storeSite st record)

/-- The durable (PostgreSQL) backend: the two tables created by
`initDatabase` (index.js lines 84-102), as row lists in insertion order.
`sites.site_key` carries a UNIQUE constraint and `id`/`event_id` are
primary keys. -/
structure Database where
  siteRows : List SiteRecord
  submissionRows : List SubmissionEntry
deriving Repr, DecidableEq

/-- `storeSite` on the durable backend (index.js lines 112-116): a plain
INSERT, which the database rejects when the `id` primary key or the
`site_key` UNIQUE constraint is violated. -/
def dbStoreSite (db : Database) (record : SiteRecord) : Except Unit Database :=
  if db.siteRows.any (fun s => s.id = record.id || s.siteKey = record.siteKey) then
    .error ()
  else .ok { db with siteRows := db.siteRows ++ [record] }

/-- `findSiteBySiteKey` on the durable backend (index.js lines 127-131):
`SELECT ... WHERE site_key = $1 LIMIT 1`, after the falsy-siteKey guard. -/
def dbFindSiteBySiteKey (db : Database) (siteKey : String) : Option SiteRecord :=
  if siteKey = "" then none
  else db.siteRows.find? (fun s => s.siteKey = siteKey)

/-- `storeSubmission` on the durable backend (index.js lines 139-151): a
plain INSERT, which the database rejects when the `event_id` primary key is
violated. -/
def dbStoreSubmission (db : Database) (entry : SubmissionEntry) : Except Unit Database :=
  if db.submissionRows.any (fun e => e.eventId = entry.eventId) then .error ()
  else .ok { db with submissionRows := db.submissionRows ++ [entry] }

/-- The random sources appearing in the code. -/
inductive RandSource where
  | cryptoRandomBytes
  | mathRandom
deriving Repr, DecidableEq

/-- Whether a random source is cryptographically secure: Node's
`crypto.randomBytes` is a CSPRNG; `Math.random` is a general-purpose
PRNG with no security guarantees. -/
def RandSource.secureSource : RandSource → Bool
  | .cryptoRandomBytes => true
  | .mathRandom => false

/-- `generateToken` (index.js lines 170-172) draws from
`crypto.randomBytes(16)`. -/
def generateTokenSource : RandSource := .cryptoRandomBytes

/-- The `siteKey` generated by `POST /v1/admin/sites` (index.js line 435)
is `pk_` + `Math.random().toString(36).slice(2)`. -/
def siteKeySource : RandSource := .mathRandom

/-- The `secretKey` generated by `POST /v1/admin/sites` (index.js line 436)
is `sk_` + `Math.random().toString(36).slice(2)`. -/
def secretKeySource : RandSource := .mathRandom

/-! ### Witness fixtures: a tiny concrete server state -/

/-- Request metadata with no Origin header (parse yields none) and no
ip/user-agent. -/
def wMeta : RequestMeta := { originHost := none, originRaw := none, ip := none, ua := none }

/-- A concrete state holding one challenge token and one access token for
tenant `pk_a`, both issued at time 0, and no registered sites. -/
def wState : ServerState :=
  { sites := [], submissions := [],
    challengeTokens := [("tok_1", { siteKey := "pk_a", issuedAt := 0, verified := false })],
    accessTokens := [("acc_0", { siteKey := "pk_a", issuedAt := 0 })] }

/-- A concrete state holding two challenge tokens for tenant `pk_a`, both
issued at time 0 — the setup under which two submissions can be accepted at
the same millisecond. -/
def wState2 : ServerState :=
  { sites := [], submissions := [],
    challengeTokens :=
      [("tok_1", { siteKey := "pk_a", issuedAt := 0, verified := false }),
       ("tok_2", { siteKey := "pk_a", issuedAt := 0, verified := false })],
    accessTokens := [] }

/-! ### Map lemmas -/

/-- Reading back the key just written returns the written value. -/
theorem mapGet_mapSet_self {α : Type} (m : List (String × α)) (k : String) (v : α) :
    mapGet (mapSet m k v) k = some v := by
  induction m with
  | nil => simp [mapSet, mapGet]
  | cons p rest ih =>
    obtain ⟨k', v'⟩ := p
    by_cases h : k' = k <;> simp [mapSet, mapGet, h, ih]

/-- Writing one key leaves every other key unchanged. -/
theorem mapGet_mapSet_ne {α : Type} (m : List (String × α)) (k k' : String) (v : α)
    (h : k ≠ k') : mapGet (mapSet m k v) k' = mapGet m k' := by
  induction m with
  | nil => simp [mapSet, mapGet, h]
  | cons p rest ih =>
    obtain ⟨k₀, v₀⟩ := p
    by_cases h₀ : k₀ = k
    · subst h₀; simp [mapSet, mapGet, h]
    · simp [mapSet, mapGet, h₀, ih]

/-- After `Map.set` of a record whose `siteKey` no existing entry carries,
the first value-scan for that `siteKey` finds exactly the new record. -/
theorem find?_mapSet_of_fresh (m : List (String × SiteRecord)) (k sk : String)
    (r : SiteRecord) (hrk : r.siteKey = sk)
    (h : ∀ p ∈ m, p.2.siteKey ≠ sk) :
    (mapSet m k r).find? (fun p => p.2.siteKey = sk) = some (k, r) := by
  induction m with
  | nil => simp [mapSet, hrk]
  | cons p rest ih =>
    obtain ⟨k₀, v₀⟩ := p
    have hv₀ : v₀.siteKey ≠ sk := h (k₀, v₀) (List.mem_cons_self _ _)
    by_cases h₀ : k₀ = k
    · simp [mapSet, h₀, hrk]
    · have := ih (fun q hq => h q (List.mem_cons_of_mem _ hq))
      simp [mapSet, h₀, hv₀, this]

/-! ### Handler shape lemmas -/

/-- A verification that reaches a known, tenant-matching, unexpired record
succeeds: it marks the record verified and stores a fresh access token. -/
theorem verify_eq_of_valid (cfg : Config) (st : ServerState) (siteKey token : String)
    (host : Option String) (now : Int) (fresh : String) (r : ChallengeRecord)
    (hsk : siteKey ≠ "") (htk : token ≠ "")
    (horigin : isOriginAllowed (findSiteBySiteKey st siteKey) host = true)
    (hrec : mapGet st.challengeTokens token = some r)
    (hmatch : r.siteKey = siteKey)
    (hexp : ¬ now - r.issuedAt > cfg.tokenTtlMs) :
    verify cfg st siteKey token host now fresh
      = (.verified fresh,
         { st with
           challengeTokens := mapSet st.challengeTokens token { r with verified := true },
           accessTokens := mapSet st.accessTokens fresh ⟨siteKey, now⟩ }) := by
  unfold verify
  rw [if_neg (by simp [hsk, htk]), if_neg (by simp [horigin]), hrec]
  simp [hmatch, isTokenExpired, hexp]

/-- A verification that reaches a known, tenant-matching but expired record
fails with `token_expired` and leaves the state unchanged. -/
theorem verify_eq_of_expired (cfg : Config) (st : ServerState) (siteKey token : String)
    (host : Option String) (now : Int) (fresh : String) (r : ChallengeRecord)
    (hsk : siteKey ≠ "") (htk : token ≠ "")
    (horigin : isOriginAllowed (findSiteBySiteKey st siteKey) host = true)
    (hrec : mapGet st.challengeTokens token = some r)
    (hmatch : r.siteKey = siteKey)
    (hexp : now - r.issuedAt > cfg.tokenTtlMs) :
    verify cfg st siteKey token host now fresh = (.tokenExpired, st) := by
  unfold verify
  rw [if_neg (by simp [hsk, htk]), if_neg (by simp [horigin]), hrec]
  simp [hmatch, isTokenExpired, hexp]

/-- The result of `submitFinish` is `accepted` exactly when the persistence
call resolves, and `storage_failed` otherwise (keeping the pre-store state). -/
theorem submitFinish_eq (st1 : ServerState) (siteKey p : String)
    (fp : Option String) (meta : RequestMeta) (now : Int) :
    submitFinish st1 siteKey p fp meta now true
      = (.accepted ("evt_" ++ toString now),
         { st1 with submissions := st1.submissions ++
             [{ eventId := "evt_" ++ toString now, siteKey := siteKey, payload := p,
                fingerprint := fp, ip := meta.ip, ua := meta.ua,
                origin := meta.originRaw }] })
    ∧ submitFinish st1 siteKey p fp meta now false = (.storageFailed, st1) := by
  constructor <;> simp [submitFinish, storeSubmission]

/-- A submission through the raw-challenge-token path whose record is known,
tenant-matching, unexpired and past the minimum delay reaches the persist
step with the record marked verified. -/
theorem submit_raw_eq_of_valid (cfg : Config) (st : ServerState) (siteKey token : String)
    (p : String) (fp : Option String) (meta : RequestMeta) (now : Int) (storeOk : Bool)
    (r : ChallengeRecord)
    (hsk : siteKey ≠ "") (htk : token ≠ "")
    (horigin : isOriginAllowed (findSiteBySiteKey st siteKey) meta.originHost = true)
    (hrec : mapGet st.challengeTokens token = some r)
    (hmatch : r.siteKey = siteKey)
    (hexp : ¬ now - r.issuedAt > cfg.tokenTtlMs)
    (hdelay : ¬ now - r.issuedAt < cfg.minSubmitDelayMs) :
    submit cfg st siteKey token "" (some p) "" fp meta now storeOk
      = submitFinish
          { st with challengeTokens :=
              mapSet st.challengeTokens token { r with verified := true } }
          siteKey p fp meta now storeOk := by
  unfold submit
  rw [if_neg (by simp [hsk, htk]), if_neg (by simp), if_neg (by simp [horigin]),
    if_neg (by simp), hrec]
  simp [hmatch, isTokenExpired, hexp, hdelay]

/-- A submission through the raw-challenge-token path that is unexpired but
arrives before `minSubmitDelayMs` is rejected as too fast, unchanged state. -/
theorem submit_raw_eq_of_tooFast (cfg : Config) (st : ServerState) (siteKey token : String)
    (p : String) (fp : Option String) (meta : RequestMeta) (now : Int) (storeOk : Bool)
    (r : ChallengeRecord)
    (hsk : siteKey ≠ "") (htk : token ≠ "")
    (horigin : isOriginAllowed (findSiteBySiteKey st siteKey) meta.originHost = true)
    (hrec : mapGet st.challengeTokens token = some r)
    (hmatch : r.siteKey = siteKey)
    (hexp : ¬ now - r.issuedAt > cfg.tokenTtlMs)
    (hdelay : now - r.issuedAt < cfg.minSubmitDelayMs) :
    submit cfg st siteKey token "" (some p) "" fp meta now storeOk
      = (.submitTooFast, st) := by
  unfold submit
  rw [if_neg (by simp [hsk, htk]), if_neg (by simp), if_neg (by simp [horigin]),
    if_neg (by simp), hrec]
  simp [hmatch, isTokenExpired, hexp, hdelay]

/-- A submission through the access-token path whose record is known,
tenant-matching and unexpired reaches the persist step with no state
mutation — in particular no minimum-delay check applies. -/
theorem submit_access_eq_of_valid (cfg : Config) (st : ServerState)
    (siteKey token accessToken : String)
    (p : String) (fp : Option String) (meta : RequestMeta) (now : Int) (storeOk : Bool)
    (a : AccessRecord)
    (hsk : siteKey ≠ "") (haT : accessToken ≠ "")
    (horigin : isOriginAllowed (findSiteBySiteKey st siteKey) meta.originHost = true)
    (hrec : mapGet st.accessTokens accessToken = some a)
    (hmatch : a.siteKey = siteKey)
    (hexp : ¬ now - a.issuedAt > cfg.tokenTtlMs) :
    submit cfg st siteKey token accessToken (some p) "" fp meta now storeOk
      = submitFinish st siteKey p fp meta now storeOk := by
  unfold submit
  rw [if_neg (by simp [hsk, haT]), if_neg (by simp), if_neg (by simp [horigin]),
    if_pos haT, hrec]
  simp [hmatch, isTokenExpired, hexp]

/-- Every rejection branch of the submit pipeline other than the persist
step returns the incoming state untouched: whenever the result is one of
the eight pre-persist rejections, the state component equals the input. -/
theorem submit_reject_preserves (cfg : Config) (st : ServerState)
    (siteKey token accessToken : String) (payload : Option String)
    (honeypot : String) (fp : Option String) (meta : RequestMeta) (now : Int)
    (storeOk : Bool)
    (hrej :
      (submit cfg st siteKey token accessToken payload honeypot fp meta now storeOk).1
          = .missingFields
      ∨ (submit cfg st siteKey token accessToken payload honeypot fp meta now storeOk).1
          = .honeypotTriggered
      ∨ (submit cfg st siteKey token accessToken payload honeypot fp meta now storeOk).1
          = .originNotAllowed
      ∨ (submit cfg st siteKey token accessToken payload honeypot fp meta now storeOk).1
          = .invalidAccessToken
      ∨ (submit cfg st siteKey token accessToken payload honeypot fp meta now storeOk).1
          = .accessTokenExpired
      ∨ (submit cfg st siteKey token accessToken payload honeypot fp meta now storeOk).1
          = .invalidToken
      ∨ (submit cfg st siteKey token accessToken payload honeypot fp meta now storeOk).1
          = .tokenExpired
      ∨ (submit cfg st siteKey token accessToken payload honeypot fp meta now storeOk).1
          = .submitTooFast) :
    (submit cfg st siteKey token accessToken payload honeypot fp meta now storeOk).2 = st := by
  have key : ∀ q : SubmitResult × ServerState,
      submit cfg st siteKey token accessToken payload honeypot fp meta now storeOk = q →
      (q.1 = .missingFields ∨ q.1 = .honeypotTriggered ∨ q.1 = .originNotAllowed
        ∨ q.1 = .invalidAccessToken ∨ q.1 = .accessTokenExpired ∨ q.1 = .invalidToken
        ∨ q.1 = .tokenExpired ∨ q.1 = .submitTooFast) → q.2 = st := by
    intro q hq hr
    unfold submit at hq
    repeat' split at hq
    all_goals first
      | (subst hq; rfl)
      | (rw [← hq] at hr; unfold submitFinish at hr; split at hr <;> simp at hr)
  exact key _ rfl hrej

/-! ### Claim theorems -/

/-- C2: `isOriginAllowed` on a present site returns true exactly when the
site's domain list is empty, the origin is absent or unparsable (host is
none), the parsed hostname equals a configured domain, or it ends with "."
followed by a configured domain; a mere string-suffix superstring such as
`notdomain.com` against allowed domain `domain.com` is rejected. -/
theorem C2_isOriginAllowed_characterization (s : SiteRecord) (host : Option String) :
    (isOriginAllowed (some s) host = true ↔
      (s.domains = [] ∨ host = none ∨
        ∃ h, host = some h ∧
          ∃ d ∈ s.domains, (h = d ∨ strEndsWith h ("." ++ d) = true)))
    ∧ isOriginAllowed
        (some { id := "site_1", name := "acme", domains := ["domain.com"],
                siteKey := "pk_1", secretKey := "sk_1" })
        (some "notdomain.com") = false := by
  refine ⟨?_, by decide⟩
  unfold isOriginAllowed
  cases host with
  | none =>
    by_cases hd : s.domains.isEmpty <;> simp [hd]
  | some h =>
    by_cases hd : s.domains.isEmpty
    · simp [hd, List.isEmpty_iff.mp hd]
    · have hne : ¬ s.domains = [] := by
        simpa [List.isEmpty_iff] using hd
      simp [hd, hne, List.any_eq_true]

/-- C3: a token counts as expired iff strictly more than the TTL has
elapsed; at elapsed time exactly equal to the TTL the token is still valid,
and neither verification nor raw-token submission fails with TokenExpired
at that boundary. -/
theorem C3_expiry_strict_boundary (cfg : Config) (now issuedAt : Int)
    (st : ServerState) (siteKey token : String) (meta : RequestMeta)
    (fresh p : String) (fp : Option String) (storeOk : Bool) :
    (isTokenExpired cfg now issuedAt = true ↔ now - issuedAt > cfg.tokenTtlMs)
    ∧ isTokenExpired cfg (issuedAt + cfg.tokenTtlMs) issuedAt = false
    ∧ (∀ r : ChallengeRecord, mapGet st.challengeTokens token = some r →
        r.siteKey = siteKey → siteKey ≠ "" → token ≠ "" →
        isOriginAllowed (findSiteBySiteKey st siteKey) meta.originHost = true →
        (verify cfg st siteKey token meta.originHost (r.issuedAt + cfg.tokenTtlMs) fresh).1
            ≠ .tokenExpired
        ∧ (submit cfg st siteKey token "" (some p) "" fp meta
            (r.issuedAt + cfg.tokenTtlMs) storeOk).1 ≠ .tokenExpired) := by
  refine ⟨by simp [isTokenExpired], by simp [isTokenExpired], ?_⟩
  intro r hrec hmatch hsk htk horigin
  have hexp : ¬ (r.issuedAt + cfg.tokenTtlMs) - r.issuedAt > cfg.tokenTtlMs := by omega
  constructor
  · rw [verify_eq_of_valid cfg st siteKey token meta.originHost
      (r.issuedAt + cfg.tokenTtlMs) fresh r hsk htk horigin hrec hmatch hexp]
    simp
  · by_cases hdelay : (r.issuedAt + cfg.tokenTtlMs) - r.issuedAt < cfg.minSubmitDelayMs
    · rw [submit_raw_eq_of_tooFast cfg st siteKey token p fp meta
        (r.issuedAt + cfg.tokenTtlMs) storeOk r hsk htk horigin hrec hmatch hexp hdelay]
      simp
    · rw [submit_raw_eq_of_valid cfg st siteKey token p fp meta
        (r.issuedAt + cfg.tokenTtlMs) storeOk r hsk htk horigin hrec hmatch hexp hdelay]
      cases storeOk
      · rw [(submitFinish_eq _ siteKey p fp meta _).2]
        simp
      · rw [(submitFinish_eq _ siteKey p fp meta _).1]
        simp

/-- C3 witness: at the default 5-minute TTL, a token issued at 0 checked at
exactly 300000 ms is not expired and a concrete verify/submit at that
boundary does not report TokenExpired. -/
theorem C3_witness :
    isTokenExpired defaultConfig 300000 0 = false
    ∧ (verify defaultConfig wState "pk_a" "tok_1" none 300000 "acc_1").1 ≠ .tokenExpired
    ∧ (submit defaultConfig wState "pk_a" "tok_1" ""
        (some "hello") "" none wMeta 300000 true).1 ≠ .tokenExpired := by
  have h := C3_expiry_strict_boundary defaultConfig 300000 0 wState "pk_a" "tok_1"
    wMeta "acc_1" "hello" none true
  have h3 := h.2.2 { siteKey := "pk_a", issuedAt := 0, verified := false }
    (by decide) rfl (by decide) (by decide) (by decide)
  exact ⟨h.2.1, h3.1, h3.2⟩

/-- C5: with all required fields present, a non-empty honeypot field makes
submit reject with HoneypotTriggered for every state, origin, token value,
timing and persistence outcome — in particular before the site lookup, the
origin check and token redemption can matter — and returns the state
unchanged, so no submission is persisted and no token state is mutated. -/
theorem C5_honeypot_rejected_unchanged (cfg : Config) (st : ServerState)
    (siteKey token accessToken p hp : String) (fp : Option String)
    (meta : RequestMeta) (now : Int) (storeOk : Bool)
    (hsk : siteKey ≠ "") (htok : ¬ (token = "" ∧ accessToken = ""))
    (hhp : hp ≠ "") :
    submit cfg st siteKey token accessToken (some p) hp fp meta now storeOk
      = (.honeypotTriggered, st) := by
  unfold submit
  rw [if_neg (by simp only [not_or]; exact ⟨hsk, htok, by simp⟩), if_pos hhp]

/-- C5 witness: a concrete honeypot-carrying submission, with a perfectly
valid unexpired token, is rejected and leaves the state untouched. -/
theorem C5_witness :
    submit defaultConfig wState "pk_a" "tok_1" "" (some "hello") "x" none wMeta 5 true
      = (.honeypotTriggered, wState) :=
  C5_honeypot_rejected_unchanged defaultConfig wState "pk_a" "tok_1" "" "hello" "x"
    none wMeta 5 true (by decide) (by decide) (by decide)

/-- C1 counterexample: a challenge token issued at time 0 for `pk_a` is
verified successfully at time 1, and a second verify call with the same
siteKey and the same still-unexpired token at time 2 succeeds again —
refuting "succeeds exactly once before expiry". -/
theorem C1_counterexample :
    (verify defaultConfig (challenge ⟨[], [], [], []⟩ "pk_a" 0 "tok_1").2
        "pk_a" "tok_1" none 1 "acc_1").1 = .verified "acc_1"
    ∧ (verify defaultConfig
        (verify defaultConfig (challenge ⟨[], [], [], []⟩ "pk_a" 0 "tok_1").2
          "pk_a" "tok_1" none 1 "acc_1").2
        "pk_a" "tok_1" none 2 "acc_2").1 = .verified "acc_2"
    ∧ isTokenExpired defaultConfig 2 0 = false := by decide

/-- C1 amended: for a valid issued (siteKey, token) pair, verifyChallenge
succeeds on EVERY call before expiry — the verified flag set by success is
never consulted, so a second call with the same still-unexpired token
succeeds again — and deterministically fails with TokenExpired once more
than the TTL has elapsed since issuedAt. -/
theorem C1_verify_repeatable_until_expiry (cfg : Config) (st : ServerState)
    (siteKey token : String) (host : Option String) (now now2 : Int)
    (fresh fresh2 : String) (r : ChallengeRecord)
    (hsk : siteKey ≠ "") (htk : token ≠ "")
    (horigin : isOriginAllowed (findSiteBySiteKey st siteKey) host = true)
    (hrec : mapGet st.challengeTokens token = some r)
    (hmatch : r.siteKey = siteKey) :
    (now - r.issuedAt > cfg.tokenTtlMs →
      (verify cfg st siteKey token host now fresh).1 = .tokenExpired)
    ∧ (¬ now - r.issuedAt > cfg.tokenTtlMs →
        (verify cfg st siteKey token host now fresh).1 = .verified fresh
        ∧ (¬ now2 - r.issuedAt > cfg.tokenTtlMs →
            (verify cfg (verify cfg st siteKey token host now fresh).2
              siteKey token host now2 fresh2).1 = .verified fresh2)) := by
  constructor
  · intro hexp
    rw [verify_eq_of_expired cfg st siteKey token host now fresh r
      hsk htk horigin hrec hmatch hexp]
  · intro hexp
    rw [verify_eq_of_valid cfg st siteKey token host now fresh r
      hsk htk horigin hrec hmatch hexp]
    refine ⟨rfl, ?_⟩
    intro hexp2
    have horigin' : isOriginAllowed
        (findSiteBySiteKey
          { st with
            challengeTokens := mapSet st.challengeTokens token { r with verified := true },
            accessTokens := mapSet st.accessTokens fresh ⟨siteKey, now⟩ } siteKey)
        host = true := by
      simpa [findSiteBySiteKey] using horigin
    rw [verify_eq_of_valid cfg _ siteKey token host now2 fresh2
      { r with verified := true } hsk htk horigin'
      (mapGet_mapSet_self _ _ _) hmatch hexp2]

/-- C1 amended witness: the concrete two-verify run, with the hypotheses of
the amended theorem discharged at `wState`. -/
theorem C1_witness :
    (verify defaultConfig wState "pk_a" "tok_1" none 1 "acc_1").1 = .verified "acc_1"
    ∧ (verify defaultConfig (verify defaultConfig wState "pk_a" "tok_1" none 1 "acc_1").2
        "pk_a" "tok_1" none 2 "acc_2").1 = .verified "acc_2" := by
  have h := (C1_verify_repeatable_until_expiry defaultConfig wState "pk_a" "tok_1"
    none 1 2 "acc_1" "acc_2" { siteKey := "pk_a", issuedAt := 0, verified := false }
    (by decide) (by decide) (by decide) (by decide) rfl).2 (by decide)
  exact ⟨h.1, h.2 (by decide)⟩

/-- C4: submission distinguishes the two token kinds.  With an accessToken,
only existence, tenant match and expiry are validated — acceptance holds at
every unexpired time with no minimum-delay condition.  With a raw challenge
token, submission before minSubmitDelay is rejected SubmitTooFast with the
state unchanged, while the identical call once at least that delay has
elapsed (still unexpired) is accepted and marks the record verified. -/
theorem C4_submit_token_kinds (cfg : Config) (st : ServerState)
    (siteKey token accessToken p : String) (fp : Option String)
    (meta : RequestMeta) (now : Int)
    (hsk : siteKey ≠ "")
    (horigin : isOriginAllowed (findSiteBySiteKey st siteKey) meta.originHost = true) :
    (accessToken ≠ "" → ∀ a : AccessRecord,
      mapGet st.accessTokens accessToken = some a →
      a.siteKey = siteKey → ¬ now - a.issuedAt > cfg.tokenTtlMs →
      (submit cfg st siteKey token accessToken (some p) "" fp meta now true).1
        = .accepted ("evt_" ++ toString now))
    ∧ (token ≠ "" → ∀ r : ChallengeRecord,
        mapGet st.challengeTokens token = some r →
        r.siteKey = siteKey → ¬ now - r.issuedAt > cfg.tokenTtlMs →
        ((now - r.issuedAt < cfg.minSubmitDelayMs →
            submit cfg st siteKey token "" (some p) "" fp meta now true
              = (.submitTooFast, st))
          ∧ (¬ now - r.issuedAt < cfg.minSubmitDelayMs →
              (submit cfg st siteKey token "" (some p) "" fp meta now true).1
                = .accepted ("evt_" ++ toString now)
              ∧ mapGet (submit cfg st siteKey token "" (some p) "" fp meta
                    now true).2.challengeTokens token
                  = some { r with verified := true }))) := by
  constructor
  · intro haT a hrec hmatch hexp
    rw [submit_access_eq_of_valid cfg st siteKey token accessToken p fp meta now true a
      hsk haT horigin hrec hmatch hexp]
    rw [(submitFinish_eq st siteKey p fp meta now).1]
  · intro htk r hrec hmatch hexp
    constructor
    · intro hdelay
      exact submit_raw_eq_of_tooFast cfg st siteKey token p fp meta now true r
        hsk htk horigin hrec hmatch hexp hdelay
    · intro hdelay
      rw [submit_raw_eq_of_valid cfg st siteKey token p fp meta now true r
        hsk htk horigin hrec hmatch hexp hdelay]
      rw [(submitFinish_eq _ siteKey p fp meta now).1]
      exact ⟨rfl, mapGet_mapSet_self _ _ _⟩

/-- C4 witness: with minSubmitDelay 1000ms, the concrete raw-token submit at
5ms is SubmitTooFast, the identical call at 1000ms is accepted and marks the
record verified, while an access-token submit at 5ms (earlier than the
delay) is accepted with no delay check. -/
theorem C4_witness :
    (submit ⟨300000, 1000⟩ wState "pk_a" "" "acc_0" (some "hello") "" none wMeta 5 true).1
      = .accepted "evt_5"
    ∧ submit ⟨300000, 1000⟩ wState "pk_a" "tok_1" "" (some "hello") "" none wMeta 5 true
      = (.submitTooFast, wState)
    ∧ (submit ⟨300000, 1000⟩ wState "pk_a" "tok_1" "" (some "hello") "" none wMeta 1000 true).1
      = .accepted "evt_1000"
    ∧ mapGet (submit ⟨300000, 1000⟩ wState "pk_a" "tok_1" "" (some "hello") "" none wMeta
        1000 true).2.challengeTokens "tok_1"
      = some { siteKey := "pk_a", issuedAt := 0, verified := true } := by
  have hacc := (C4_submit_token_kinds ⟨300000, 1000⟩ wState "pk_a" "" "acc_0" "hello"
    none wMeta 5 (by decide) (by decide)).1 (by decide)
    { siteKey := "pk_a", issuedAt := 0 } rfl rfl (by decide)
  have hraw5 := (C4_submit_token_kinds ⟨300000, 1000⟩ wState "pk_a" "tok_1" "" "hello"
    none wMeta 5 (by decide) (by decide)).2 (by decide)
    { siteKey := "pk_a", issuedAt := 0, verified := false } rfl rfl (by decide)
  have hraw1000 := (C4_submit_token_kinds ⟨300000, 1000⟩ wState "pk_a" "tok_1" "" "hello"
    none wMeta 1000 (by decide) (by decide)).2 (by decide)
    { siteKey := "pk_a", issuedAt := 0, verified := false } rfl rfl (by decide)
  refine ⟨hacc, hraw5.1 (by decide), ?_, ?_⟩
  · exact (hraw1000.2 (by decide)).1
  · exact (hraw1000.2 (by decide)).2

/-- C6: a site created via createSite (non-empty name, any domain list,
fresh generated keys) is immediately retrievable via findBySiteKey with
identical domains and secretKey, under both the ephemeral in-memory backend
and the durable relational backend. -/
theorem C6_createSite_findBySiteKey_roundtrip (st : ServerState) (db : Database)
    (name : String) (domains : List String) (id siteKey secretKey : String)
    (hname : name ≠ "") (hkey : siteKey ≠ "")
    (hfreshMem : ∀ p ∈ st.sites, p.2.siteKey ≠ siteKey)
    (hfreshDb : ∀ s ∈ db.siteRows, s.id ≠ id ∧ s.siteKey ≠ siteKey) :
    (∃ record : SiteRecord,
      (createSite st name domains id siteKey secretKey).1 = .created record
      ∧ findSiteBySiteKey (createSite st name domains id siteKey secretKey).2 siteKey
          = some record
      ∧ record.domains = domains ∧ record.secretKey = secretKey)
    ∧ (∃ db' : Database,
        dbStoreSite db ⟨id, name, domains, siteKey, secretKey⟩ = .ok db'
        ∧ dbFindSiteBySiteKey db' siteKey
            = some ⟨id, name, domains, siteKey, secretKey⟩) := by
  constructor
  · refine ⟨⟨id, name, domains, siteKey, secretKey⟩, ?_, ?_, rfl, rfl⟩
    · simp [createSite, hname]
    · simp only [createSite, if_neg hname, storeSite, findSiteBySiteKey, if_neg hkey]
      rw [find?_mapSet_of_fresh st.sites id siteKey
        ⟨id, name, domains, siteKey, secretKey⟩ rfl hfreshMem]
      rfl
  · refine ⟨{ siteRows := db.siteRows ++ [⟨id, name, domains, siteKey, secretKey⟩],
              submissionRows := db.submissionRows }, ?_, ?_⟩
    · have hcond : (db.siteRows.any
          (fun s => s.id = id || s.siteKey = siteKey)) = false := by
        rw [List.any_eq_false]
        intro s hs
        simp [(hfreshDb s hs).1, (hfreshDb s hs).2]
      simp [dbStoreSite, hcond]
    · unfold dbFindSiteBySiteKey
      rw [if_neg hkey]
      rw [List.find?_append]
      have hnone : db.siteRows.find? (fun s => s.siteKey = siteKey) = none := by
        rw [List.find?_eq_none]
        intro s hs
        simp [(hfreshDb s hs).2]
      rw [hnone]
      simp

/-- C6 witness: a concrete round-trip through both backends from empty
stores. -/
theorem C6_witness :
    findSiteBySiteKey
        (createSite ⟨[], [], [], []⟩ "acme" ["domain.com"] "site_1" "pk_1" "sk_1").2 "pk_1"
      = some ⟨"site_1", "acme", ["domain.com"], "pk_1", "sk_1"⟩
    ∧ (dbStoreSite ⟨[], []⟩ ⟨"site_1", "acme", ["domain.com"], "pk_1", "sk_1"⟩
        = .ok ⟨[⟨"site_1", "acme", ["domain.com"], "pk_1", "sk_1"⟩], []⟩)
    ∧ dbFindSiteBySiteKey ⟨[⟨"site_1", "acme", ["domain.com"], "pk_1", "sk_1"⟩], []⟩ "pk_1"
      = some ⟨"site_1", "acme", ["domain.com"], "pk_1", "sk_1"⟩ := by
  have h := C6_createSite_findBySiteKey_roundtrip ⟨[], [], [], []⟩ ⟨[], []⟩
    "acme" ["domain.com"] "site_1" "pk_1" "sk_1"
    (by decide) (by decide) (by intro p hp; cases hp) (by intro s hs; cases hs)
  obtain ⟨⟨record, hcreated, hfind, hdom, hsec⟩, ⟨db', hstore, hdbfind⟩⟩ := h
  have hrec : record = ⟨"site_1", "acme", ["domain.com"], "pk_1", "sk_1"⟩ := by
    have : (createSite (⟨[], [], [], []⟩ : ServerState) "acme" ["domain.com"]
        "site_1" "pk_1" "sk_1").1
        = CreateSiteResult.created ⟨"site_1", "acme", ["domain.com"], "pk_1", "sk_1"⟩ := by
      decide
    rw [this] at hcreated
    cases hcreated
    rfl
  have hdb' : db' = ⟨[⟨"site_1", "acme", ["domain.com"], "pk_1", "sk_1"⟩], []⟩ := by
    have heq : dbStoreSite (⟨[], []⟩ : Database)
        ⟨"site_1", "acme", ["domain.com"], "pk_1", "sk_1"⟩
        = Except.ok (⟨[⟨"site_1", "acme", ["domain.com"], "pk_1", "sk_1"⟩], []⟩ : Database) :=
      rfl
    rw [heq] at hstore
    cases hstore
    rfl
  subst hrec
  subst hdb'
  exact ⟨hfind, hstore, hdbfind⟩

/-- C7: the code derives every eventId from the wall clock alone
(`evt_` + Date.now()), so two submissions accepted at the same millisecond
share an eventId: from a state with two valid tokens, both concrete submit
calls at time 5 are accepted with eventId `evt_5`, the store then holds two
distinct submissions with equal eventIds, and the durable backend's
`event_id` PRIMARY KEY insert rejects the second entry. -/
theorem C7_eventId_not_unique :
    (submit defaultConfig wState2 "pk_a" "tok_1" "" (some "p1") "" none wMeta 5 true).1
      = .accepted "evt_5"
    ∧ (submit defaultConfig
        (submit defaultConfig wState2 "pk_a" "tok_1" "" (some "p1") "" none wMeta 5 true).2
        "pk_a" "tok_2" "" (some "p2") "" none wMeta 5 true).1 = .accepted "evt_5"
    ∧ ((submit defaultConfig
        (submit defaultConfig wState2 "pk_a" "tok_1" "" (some "p1") "" none wMeta 5 true).2
        "pk_a" "tok_2" "" (some "p2") "" none wMeta 5 true).2.submissions.map
          (fun e => e.eventId)) = ["evt_5", "evt_5"]
    ∧ ((submit defaultConfig
        (submit defaultConfig wState2 "pk_a" "tok_1" "" (some "p1") "" none wMeta 5 true).2
        "pk_a" "tok_2" "" (some "p2") "" none wMeta 5 true).2.submissions.map
          (fun e => e.payload)) = ["p1", "p2"]
    ∧ dbStoreSubmission
        ⟨[], [{ eventId := "evt_5", siteKey := "pk_a", payload := "p1",
                fingerprint := none, ip := none, ua := none, origin := none }]⟩
        { eventId := "evt_5", siteKey := "pk_a", payload := "p2",
          fingerprint := none, ip := none, ua := none, origin := none }
      = .error () := by
  refine ⟨by decide, by decide, by decide, by decide, ?_⟩
  rfl

/-- C8: the siteKey and secretKey bearer credentials minted by
`POST /v1/admin/sites` are drawn from `Math.random().toString(36)`, a
general-purpose PRNG that is not cryptographically secure, while only
`generateToken` (challenge/access tokens) uses `crypto.randomBytes`. -/
theorem C8_site_keys_not_csprng :
    siteKeySource = RandSource.mathRandom
    ∧ secretKeySource = RandSource.mathRandom
    ∧ RandSource.secureSource siteKeySource = false
    ∧ RandSource.secureSource secretKeySource = false
    ∧ generateTokenSource = RandSource.cryptoRandomBytes
    ∧ RandSource.secureSource generateTokenSource = true := by decide

/-- C9: challenge issuance never consults the site registry — any non-empty
siteKey, including one belonging to no registered site, receives a recorded
challenge token bound to it; and a subsequent submit with that token and the
same unregistered siteKey succeeds (the site lookup returns none, so origin
enforcement is skipped), persisting a submission for a tenant that does not
exist. -/
theorem C9_unregistered_site_accepted (cfg : Config) (st : ServerState)
    (siteKey ftok p : String) (fp : Option String) (meta : RequestMeta)
    (now now2 : Int)
    (hsk : siteKey ≠ "") (hftok : ftok ≠ "")
    (hnosite : findSiteBySiteKey st siteKey = none)
    (httl : ¬ now2 - now > cfg.tokenTtlMs)
    (hdelay : ¬ now2 - now < cfg.minSubmitDelayMs) :
    (challenge st siteKey now ftok).1 = .issued ("chl_" ++ toString now) ftok
    ∧ mapGet (challenge st siteKey now ftok).2.challengeTokens ftok
        = some { siteKey := siteKey, issuedAt := now, verified := false }
    ∧ (submit cfg (challenge st siteKey now ftok).2 siteKey ftok "" (some p) "" fp meta
        now2 true).1 = .accepted ("evt_" ++ toString now2)
    ∧ (submit cfg (challenge st siteKey now ftok).2 siteKey ftok "" (some p) "" fp meta
        now2 true).2.submissions
      = st.submissions ++
          [{ eventId := "evt_" ++ toString now2, siteKey := siteKey, payload := p,
             fingerprint := fp, ip := meta.ip, ua := meta.ua,
             origin := meta.originRaw }] := by
  have hch : challenge st siteKey now ftok
      = (.issued ("chl_" ++ toString now) ftok,
         { st with challengeTokens :=
             mapSet st.challengeTokens ftok ⟨siteKey, now, false⟩ }) := by
    simp [challenge, hsk]
  rw [hch]
  have hnosite1 : findSiteBySiteKey
      { st with challengeTokens := mapSet st.challengeTokens ftok ⟨siteKey, now, false⟩ }
      siteKey = none := by
    simpa [findSiteBySiteKey] using hnosite
  have horigin : isOriginAllowed
      (findSiteBySiteKey
        { st with challengeTokens := mapSet st.challengeTokens ftok ⟨siteKey, now, false⟩ }
        siteKey) meta.originHost = true := by
    rw [hnosite1]
    rfl
  have hsub := submit_raw_eq_of_valid cfg
    { st with challengeTokens := mapSet st.challengeTokens ftok ⟨siteKey, now, false⟩ }
    siteKey ftok p fp meta now2 true ⟨siteKey, now, false⟩
    hsk hftok horigin (mapGet_mapSet_self _ _ _) rfl httl hdelay
  rw [hsub, (submitFinish_eq _ siteKey p fp meta now2).1]
  exact ⟨rfl, mapGet_mapSet_self _ _ _, rfl, rfl⟩

/-- C9 witness: from an empty registry, challenge for the unregistered
tenant `pk_ghost` issues a token and the follow-up submit is accepted and
persisted. -/
theorem C9_witness :
    (challenge ⟨[], [], [], []⟩ "pk_ghost" 0 "tok_g").1 = .issued "chl_0" "tok_g"
    ∧ (submit defaultConfig (challenge ⟨[], [], [], []⟩ "pk_ghost" 0 "tok_g").2
        "pk_ghost" "tok_g" "" (some "hello") "" none wMeta 5 true).1 = .accepted "evt_5"
    ∧ (submit defaultConfig (challenge ⟨[], [], [], []⟩ "pk_ghost" 0 "tok_g").2
        "pk_ghost" "tok_g" "" (some "hello") "" none wMeta 5 true).2.submissions
      = [{ eventId := "evt_5", siteKey := "pk_ghost", payload := "hello",
           fingerprint := none, ip := none, ua := none, origin := none }] := by
  have h := C9_unregistered_site_accepted defaultConfig ⟨[], [], [], []⟩
    "pk_ghost" "tok_g" "hello" none wMeta 0 5
    (by decide) (by decide) rfl (by decide) (by decide)
  exact ⟨h.1, h.2.2.1, h.2.2.2⟩

/-- C10: the raw-challenge-token path is not atomic on storage failure —
the record is marked verified before the persistence call, so when the
store fails the caller gets StorageError while the token record stays
mutated and no submission is appended; and every earlier rejection in the
pipeline returns the server state (token maps and submission store)
entirely unchanged. -/
theorem C10_storage_failure_nonatomic (cfg : Config) (st : ServerState)
    (siteKey token p : String) (fp : Option String) (meta : RequestMeta)
    (now : Int) (r : ChallengeRecord)
    (hsk : siteKey ≠ "") (htk : token ≠ "")
    (horigin : isOriginAllowed (findSiteBySiteKey st siteKey) meta.originHost = true)
    (hrec : mapGet st.challengeTokens token = some r)
    (hmatch : r.siteKey = siteKey)
    (hexp : ¬ now - r.issuedAt > cfg.tokenTtlMs)
    (hdelay : ¬ now - r.issuedAt < cfg.minSubmitDelayMs) :
    (submit cfg st siteKey token "" (some p) "" fp meta now false
      = (.storageFailed,
         { st with challengeTokens :=
             mapSet st.challengeTokens token { r with verified := true } }))
    ∧ mapGet (submit cfg st siteKey token "" (some p) "" fp meta
          now false).2.challengeTokens token = some { r with verified := true }
    ∧ (submit cfg st siteKey token "" (some p) "" fp meta now false).2.submissions
        = st.submissions
    ∧ (∀ (st' : ServerState) (siteKey' token' accessToken' : String)
        (payload' : Option String) (honeypot' : String) (fp' : Option String)
        (meta' : RequestMeta) (now' : Int) (storeOk' : Bool),
        ((submit cfg st' siteKey' token' accessToken' payload' honeypot' fp' meta'
              now' storeOk').1 = .missingFields
          ∨ (submit cfg st' siteKey' token' accessToken' payload' honeypot' fp' meta'
              now' storeOk').1 = .honeypotTriggered
          ∨ (submit cfg st' siteKey' token' accessToken' payload' honeypot' fp' meta'
              now' storeOk').1 = .originNotAllowed
          ∨ (submit cfg st' siteKey' token' accessToken' payload' honeypot' fp' meta'
              now' storeOk').1 = .invalidAccessToken
          ∨ (submit cfg st' siteKey' token' accessToken' payload' honeypot' fp' meta'
              now' storeOk').1 = .accessTokenExpired
          ∨ (submit cfg st' siteKey' token' accessToken' payload' honeypot' fp' meta'
              now' storeOk').1 = .invalidToken
          ∨ (submit cfg st' siteKey' token' accessToken' payload' honeypot' fp' meta'
              now' storeOk').1 = .tokenExpired
          ∨ (submit cfg st' siteKey' token' accessToken' payload' honeypot' fp' meta'
              now' storeOk').1 = .submitTooFast) →
        (submit cfg st' siteKey' token' accessToken' payload' honeypot' fp' meta'
            now' storeOk').2 = st') := by
  have hsub := submit_raw_eq_of_valid cfg st siteKey token p fp meta now false r
    hsk htk horigin hrec hmatch hexp hdelay
  rw [hsub, (submitFinish_eq _ siteKey p fp meta now).2]
  exact ⟨rfl, mapGet_mapSet_self _ _ _, rfl,
    fun st' sk' tk' at' pl' hp' fp' m' n' so' hr =>
      submit_reject_preserves cfg st' sk' tk' at' pl' hp' fp' m' n' so' hr⟩

/-- C10 witness: a concrete failed store leaves `tok_1` marked verified
with no submission appended, and a concrete honeypot rejection leaves the
state untouched. -/
theorem C10_witness :
    submit defaultConfig wState "pk_a" "tok_1" "" (some "hello") "" none wMeta 5 false
      = (.storageFailed,
         { wState with challengeTokens :=
             [("tok_1", { siteKey := "pk_a", issuedAt := 0, verified := true })] })
    ∧ (submit defaultConfig wState "pk_a" "tok_1" "" (some "hello") "x" none wMeta
        5 true).2 = wState := by
  have h := C10_storage_failure_nonatomic defaultConfig wState "pk_a" "tok_1" "hello"
    none wMeta 5 { siteKey := "pk_a", issuedAt := 0, verified := false }
    (by decide) (by decide) (by decide) rfl rfl (by decide) (by decide)
  refine ⟨h.1, ?_⟩
  exact h.2.2.2 wState "pk_a" "tok_1" "" (some "hello") "x" none wMeta 5 true
    (Or.inr (Or.inl (by decide)))

end Catalyst
